import Mathlib

/-!
# Verification of the `github_assets` release-install TUI core

Shallow embedding of the core of `src/main.rs` and `src/github.rs`:
the release catalog, the selectable list model (`StatefulList`), the
per-item status toggle (`App::flip_status`), cursor navigation
(`StatefulList::next` / `previous` / `unselect`, `App::go_top` /
`go_bottom`), and the deployment pipeline executed at the bottom of the
control loop in `App::run`.

Modelling conventions:
- `usize` arithmetic is modelled on `Nat` with explicit wrapping modulo
  `2 ^ 64` where the Rust source can overflow (release-build semantics;
  a debug build would panic at the same spot).  The only such spot is
  `len - 1` in `go_bottom`, `next` and `previous`.
- ratatui's `ListState` is reduced to its `selected : Option usize`
  field; the scroll `offset` is view-layer state that no modelled
  behavior reads.
- The external collaborators (HTTP download, ADB connect/push/shell)
  are replaced by an oracle `ExternalWorld` of success/failure flags,
  and the pipeline body additionally returns the list of external
  calls it performed plus the outcome it reported.  A failed ADB
  connect or `File::open` is an `unwrap` panic in the source, i.e. a
  process abort, so the oracle covers download, send and install.
- Environment-variable lookups and terminal I/O are out of scope.
-/

/-- Item status, from `enum Status { Open, Installed }` in `main.rs`.
The spec calls `Open` "Idle" and `Installed` "InProgress". -/
inductive Status where
  | Open : Status
  | Installed : Status
deriving DecidableEq, Repr

/-- From `struct ReleaseItem` in `main.rs` (borrowed `&str` fields become
`String`, `asset_id : i32` becomes `Int`; -1 is the "no apk asset"
sentinel). -/
structure ReleaseItem where
  tag_name : String
  body : String
  asset_id : Int
  status : Status
deriving DecidableEq, Repr

instance : Inhabited ReleaseItem :=
  ⟨⟨"", "", -1, Status.Open⟩⟩

/-- From `struct StatefulList` in `main.rs`; `state : ListState` is kept
only as its `selected` field. -/
structure StatefulList where
  selected : Option Nat
  items : List ReleaseItem
  last_selected : Option Nat
  in_progress : Option Nat
deriving DecidableEq, Repr

/-- From `struct App` in `main.rs`. -/
structure App where
  items : StatefulList
deriving DecidableEq, Repr

/-- From `pub struct Asset` in `github.rs`. -/
structure Asset where
  name : String
  browser_download_url : String
  id : Int
deriving DecidableEq, Repr

/-- From `pub struct Release` in `github.rs`. -/
structure Release where
  tag_name : String
  body : String
  name : Option String
  assets : List Asset
deriving DecidableEq, Repr

/-- The `usize` modulus. -/
def USIZE : Nat := 2 ^ 64

/-- Rust `n - 1` on `usize`, with release-build wrapping semantics:
`0 - 1` wraps to `2 ^ 64 - 1` (a debug build panics there instead). -/
def usizeSub1 (n : Nat) : Nat := (n + (USIZE - 1)) % USIZE

/-- In-place update of one list element, as Rust field assignment
through `self.items.items[i]` (out-of-range is unreachable in the
source: the index comes from a bounds-checked access that would have
panicked first). -/
def modifyIdx {α : Type} : List α → Nat → (α → α) → List α
  | [], _, _ => []
  | x :: xs, 0, f => f x :: xs
  | x :: xs, n + 1, f => x :: modifyIdx xs n f

/-- The status toggle in the body of `App::flip_status`. -/
def toggleStatus : Status → Status
  | Status.Installed => Status.Open
  | Status.Open => Status.Installed

/-- Embeds `StatefulList::next` from `main.rs`:
wrap-around successor of the cursor; with no cursor, resume at
`last_selected` or 0. -/
def StatefulList.next (l : StatefulList) : StatefulList :=
  let i : Nat :=
    match l.selected with
    | some i => if usizeSub1 l.items.length ≤ i then 0 else i + 1
    | none => l.last_selected.getD 0
  { l with selected := some i }

/-- Embeds `StatefulList::previous` from `main.rs`. -/
def StatefulList.previous (l : StatefulList) : StatefulList :=
  let i : Nat :=
    match l.selected with
    | some i => if i = 0 then usizeSub1 l.items.length else i - 1
    | none => l.last_selected.getD 0
  { l with selected := some i }

/-- Embeds `StatefulList::unselect` from `main.rs`: save the cursor into
`last_selected` and clear it (the source also saves and restores the
view offset, which is not modelled). -/
def StatefulList.unselect (l : StatefulList) : StatefulList :=
  { l with last_selected := l.selected, selected := none }

/-- The per-item effect of `App::flip_status`: replace the status by its
toggle. -/
def flipItem (it : ReleaseItem) : ReleaseItem :=
  { it with status := toggleStatus it.status }

/-- Embeds `App::flip_status` from `main.rs`: with a cursor on item `i`,
set `in_progress := Some i` and toggle item `i`'s status; with no cursor
do nothing.  There is no guard on `in_progress` in the source. -/
def App.flip_status (a : App) : App :=
  match a.items.selected with
  | some i =>
      { items :=
          { a.items with
            in_progress := some i
            items := modifyIdx a.items.items i flipItem } }
  | none => a

/-- Embeds `App::go_top` from `main.rs`. -/
def App.go_top (a : App) : App :=
  { a with items := { a.items with selected := some 0 } }

/-- Embeds `App::go_bottom` from `main.rs`: selects `len - 1` unguarded, so on
an empty list the subtraction wraps (release) or panics (debug). -/
def App.go_bottom (a : App) : App :=
  { a with items := { a.items with selected := some (usizeSub1 a.items.items.length) } }

/-- Rust `str::ends_with` on the character sequences of the two
strings: the last `post.length` characters of `s` equal `post`. -/
def endsWithStr (s post : String) : Bool :=
  let n := s.data.length
  let m := post.data.length
  if m ≤ n then s.data.drop (n - m) == post.data else false

/-- The asset-resolution step of `impl From<&Release> for ReleaseItem`:
the id of the first asset whose name ends in `.apk`, else -1. -/
def releaseItemFrom (r : Release) : ReleaseItem :=
  let download_url : Int :=
    match r.assets.find? (fun a => endsWithStr a.name ".apk") with
    | some asset => asset.id
    | none => -1
  { tag_name := r.tag_name, body := r.body, asset_id := download_url
    status := Status.Open }

/-- Embeds `App::new` from `main.rs`. -/
def App.new (releases : List Release) : App :=
  { items :=
      { selected := none
        items := releases.map releaseItemFrom
        last_selected := none
        in_progress := none } }

/-- The external calls the pipeline body of `App::run` can issue. -/
inductive PipelineEvent where
  | downloadCall : Int → PipelineEvent
  | connectCall : PipelineEvent
  | pushCall : PipelineEvent
  | installCall : PipelineEvent
deriving DecidableEq, Repr

/-- The outcome the pipeline body reports (the `println!` branches of
`App::run`; `success` is the silent all-stages-succeeded path). -/
inductive RunOutcome where
  | noAsset : RunOutcome
  | downloadErr : RunOutcome
  | sendErr : RunOutcome
  | installErr : RunOutcome
  | success : RunOutcome
deriving DecidableEq, Repr

/-- Oracle for the external collaborators: whether the GitHub download,
the ADB push and the remote install succeed on this loop iteration.
(ADB connect and `File::open` failures are `unwrap` panics in the
source, i.e. process aborts, not pipeline outcomes.) -/
structure ExternalWorld where
  downloadOk : Bool
  sendOk : Bool
  installOk : Bool
deriving DecidableEq, Repr

/-- The pipeline body at the bottom of the loop in `App::run`
(`if let Some(index) = self.items.in_progress { ... }`): returns the
new state, the external calls made, and the reported outcome.
`in_progress` is set to `None` only on the two install branches; all
other branches leave the state untouched. -/
def pipelineStep (w : ExternalWorld) (a : App) : App × List PipelineEvent × Option RunOutcome :=
  match a.items.in_progress with
  | none => (a, [], none)
  | some index =>
      let item := a.items.items.getD index default
      if item.asset_id = -1 then
        (a, [], some RunOutcome.noAsset)
      else if w.downloadOk = false then
        (a, [PipelineEvent.downloadCall item.asset_id], some RunOutcome.downloadErr)
      else if w.sendOk = false then
        (a, [PipelineEvent.downloadCall item.asset_id, PipelineEvent.connectCall,
             PipelineEvent.pushCall], some RunOutcome.sendErr)
      else if w.installOk = false then
        ({ items := { a.items with in_progress := none } },
         [PipelineEvent.downloadCall item.asset_id, PipelineEvent.connectCall,
          PipelineEvent.pushCall, PipelineEvent.installCall], some RunOutcome.installErr)
      else
        ({ items := { a.items with in_progress := none } },
         [PipelineEvent.downloadCall item.asset_id, PipelineEvent.connectCall,
          PipelineEvent.pushCall, PipelineEvent.installCall], some RunOutcome.success)

/-- The key inputs of the control loop in `App::run` (`q`/`Esc` exits
the loop and is not a state transition; unmatched keys are `other`). -/
inductive KeyInput where
  | left : KeyInput
  | down : KeyInput
  | up : KeyInput
  | right : KeyInput
  | gTop : KeyInput
  | gBottom : KeyInput
  | other : KeyInput
deriving DecidableEq, Repr

/-- The key-dispatch `match` in `App::run`. -/
def handleKey : KeyInput → App → App
  | KeyInput.left, a => { a with items := a.items.unselect }
  | KeyInput.down, a => { a with items := a.items.next }
  | KeyInput.up, a => { a with items := a.items.previous }
  | KeyInput.right, a => a.flip_status
  | KeyInput.gTop, a => a.go_top
  | KeyInput.gBottom, a => a.go_bottom
  | KeyInput.other, a => a

/-- One iteration of the control loop in `App::run`: handle the key
event, then run the pipeline body if `in_progress` is set. -/
def loopStep (w : ExternalWorld) (k : KeyInput) (a : App) : App :=
  (pipelineStep w (handleKey k a)).1

/-- A whole interactive session: fold `loopStep` over a list of
(key, external-world) iterations. -/
def runSteps (steps : List (KeyInput × ExternalWorld)) (a : App) : App :=
  steps.foldl (fun s p => loopStep p.2 p.1 s) a

/-- Cursor-validity invariant of the list model over a non-empty
catalog: the cursor and the remembered cursor, when set, are in-range
(items is never resized after construction). -/
def cursorInv (a : App) : Prop :=
  0 < a.items.items.length ∧
  (∀ i, a.items.selected = some i → i < a.items.items.length) ∧
  (∀ i, a.items.last_selected = some i → i < a.items.items.length)

/-- Fixture: a release carrying an installable `.apk` asset with id 5. -/
def apkRelease : Release :=
  { tag_name := "v1.0", body := "notes for v1.0", name := none
    assets := [{ name := "app.apk", browser_download_url := "u", id := 5 }] }

/-- Fixture: a release whose only asset is not an `.apk`, so asset
resolution yields the sentinel -1. -/
def zipRelease : Release :=
  { tag_name := "v1.1", body := "notes for v1.1", name := none
    assets := [{ name := "src.zip", browser_download_url := "u", id := 7 }] }

/-- Fixture: all external calls succeed. -/
def okWorld : ExternalWorld := { downloadOk := true, sendOk := true, installOk := true }

/-- Fixture: the GitHub asset download fails. -/
def downloadFailWorld : ExternalWorld := { downloadOk := false, sendOk := true, installOk := true }

/-- Fixture: a state whose pending item has no installable asset. -/
def noAssetApp : App :=
  { items :=
      { selected := some 0, items := [releaseItemFrom zipRelease]
        last_selected := none, in_progress := some 0 } }

/-- Fixture: a state whose pending item has asset id 5. -/
def apkApp : App :=
  { items :=
      { selected := some 0, items := [releaseItemFrom apkRelease]
        last_selected := none, in_progress := some 0 } }

/-- Fixture: select the apk release and activate it; the pipeline run
succeeds through all four stages. -/
def runOkState : App :=
  runSteps [(KeyInput.down, okWorld), (KeyInput.right, okWorld)] (App.new [apkRelease])

/-- Fixture: select the apk release and activate it; the pipeline run
fails at the Download stage. -/
def runDlFailState : App :=
  runSteps [(KeyInput.down, downloadFailWorld), (KeyInput.right, downloadFailWorld)]
    (App.new [apkRelease])

/-- Fixture: activate item 0 (its run keeps failing with no asset, so
the pending slot stays at 0), then navigate down to item 1. -/
def twoPendingState : App :=
  runSteps [(KeyInput.down, okWorld), (KeyInput.right, okWorld), (KeyInput.down, okWorld)]
    (App.new [zipRelease, zipRelease])

/-- Fixture: a three-item list with the cursor on index 1. -/
def cycleList : StatefulList :=
  { selected := some 1, items := [default, default, default]
    last_selected := none, in_progress := none }

/-- Fixture: a three-item list with the cursor on index 2. -/
def resumeList : StatefulList :=
  { selected := some 2, items := [default, default, default]
    last_selected := none, in_progress := none }

/-- Fixture: a one-item state with the cursor on index 0. -/
def flipApp : App :=
  { items :=
      { selected := some 0, items := [default]
        last_selected := none, in_progress := none } }

/-- Fixture: item 0 is pending while the cursor sits on item 1. -/
def pendingOtherApp : App :=
  { items :=
      { selected := some 1, items := [default, default]
        last_selected := none, in_progress := some 0 } }

theorem usizeSub1_lt {n : Nat} (h : 0 < n) : usizeSub1 n < n := by
  unfold usizeSub1 USIZE
  rcases Nat.lt_or_ge n (2 ^ 64) with hlt | hge
  · have he : n + (2 ^ 64 - 1) = 2 ^ 64 + (n - 1) := by omega
    rw [he, Nat.add_mod_left, Nat.mod_eq_of_lt (by omega)]
    omega
  · exact lt_of_lt_of_le (Nat.mod_lt _ (by norm_num)) hge

theorem usizeSub1_eq {n : Nat} (h0 : 0 < n) (h : n < USIZE) : usizeSub1 n = n - 1 := by
  unfold usizeSub1
  have he : n + (USIZE - 1) = USIZE + (n - 1) := by
    have : 0 < USIZE := by norm_num [USIZE]
    omega
  rw [he, Nat.add_mod_left, Nat.mod_eq_of_lt (by omega)]

theorem modifyIdx_length {α : Type} (l : List α) (i : Nat) (f : α → α) :
    (modifyIdx l i f).length = l.length := by
  induction l generalizing i with
  | nil => rfl
  | cons x xs ih =>
      cases i with
      | zero => rfl
      | succ n => simp [modifyIdx, ih]

theorem flipItem_flipItem (it : ReleaseItem) : flipItem (flipItem it) = it := by
  cases it with
  | mk t b a s => cases s <;> rfl

theorem modifyIdx_flipItem_invol (l : List ReleaseItem) (i : Nat) :
    modifyIdx (modifyIdx l i flipItem) i flipItem = l := by
  induction l generalizing i with
  | nil => rfl
  | cons x xs ih =>
      cases i with
      | zero => simp [modifyIdx, flipItem_flipItem]
      | succ n => simp [modifyIdx, ih]

theorem pipelineStep_of_none (w : ExternalWorld) (a : App)
    (h : a.items.in_progress = none) : pipelineStep w a = (a, [], none) := by
  simp [pipelineStep, h]

theorem pipelineStep_preserves (w : ExternalWorld) (a : App) :
    (pipelineStep w a).1.items.items = a.items.items ∧
    (pipelineStep w a).1.items.selected = a.items.selected ∧
    (pipelineStep w a).1.items.last_selected = a.items.last_selected := by
  cases h : a.items.in_progress with
  | none => simp [pipelineStep, h]
  | some i =>
      simp only [pipelineStep, h]
      split_ifs <;> simp

theorem pipelineStep_install_clears (w : ExternalWorld) (a : App)
    (h : (pipelineStep w a).2.2 = some RunOutcome.success ∨
         (pipelineStep w a).2.2 = some RunOutcome.installErr) :
    (pipelineStep w a).1.items.in_progress = none := by
  cases hp : a.items.in_progress with
  | none => simp [pipelineStep, hp] at h
  | some i =>
      simp only [pipelineStep, hp] at h ⊢
      split_ifs at h ⊢ <;> simp_all

theorem pipelineStep_fail_keeps (w : ExternalWorld) (a : App)
    (h : (pipelineStep w a).2.2 = some RunOutcome.noAsset ∨
         (pipelineStep w a).2.2 = some RunOutcome.downloadErr ∨
         (pipelineStep w a).2.2 = some RunOutcome.sendErr) :
    (pipelineStep w a).1 = a := by
  cases hp : a.items.in_progress with
  | none => simp [pipelineStep, hp]
  | some i =>
      simp only [pipelineStep, hp] at h ⊢
      split_ifs at h ⊢ <;> simp_all

theorem handleKey_in_progress (k : KeyInput) (a : App) (h : k ≠ KeyInput.right) :
    (handleKey k a).items.in_progress = a.items.in_progress := by
  cases k with
  | right => exact absurd rfl h
  | left => rfl
  | down => rfl
  | up => rfl
  | gTop => rfl
  | gBottom => rfl
  | other => rfl

theorem next_selected_lt (l : StatefulList) (hlen : 0 < l.items.length)
    (hsel : ∀ i, l.selected = some i → i < l.items.length)
    (hlast : ∀ i, l.last_selected = some i → i < l.items.length) :
    ∀ i, l.next.selected = some i → i < l.next.items.length := by
  intro i hi
  show i < l.items.length
  cases hs : l.selected with
  | some j =>
      have hj := hsel j hs
      have he : l.next.selected = some (if usizeSub1 l.items.length ≤ j then 0 else j + 1) := by
        simp [StatefulList.next, hs]
      rw [he] at hi
      have hv := Option.some.inj hi
      subst hv
      split_ifs with hc
      · exact hlen
      · have := usizeSub1_lt hlen
        omega
  | none =>
      cases hl : l.last_selected with
      | some k =>
          have he : l.next.selected = some k := by simp [StatefulList.next, hs, hl]
          rw [he] at hi
          have hv := Option.some.inj hi
          subst hv
          exact hlast k hl
      | none =>
          have he : l.next.selected = some 0 := by simp [StatefulList.next, hs, hl]
          rw [he] at hi
          have hv := Option.some.inj hi
          subst hv
          exact hlen

theorem previous_selected_lt (l : StatefulList) (hlen : 0 < l.items.length)
    (hsel : ∀ i, l.selected = some i → i < l.items.length)
    (hlast : ∀ i, l.last_selected = some i → i < l.items.length) :
    ∀ i, l.previous.selected = some i → i < l.previous.items.length := by
  intro i hi
  show i < l.items.length
  cases hs : l.selected with
  | some j =>
      have hj := hsel j hs
      have he : l.previous.selected = some (if j = 0 then usizeSub1 l.items.length else j - 1) := by
        simp [StatefulList.previous, hs]
      rw [he] at hi
      have hv := Option.some.inj hi
      subst hv
      split_ifs with hc
      · exact usizeSub1_lt hlen
      · omega
  | none =>
      cases hl : l.last_selected with
      | some k =>
          have he : l.previous.selected = some k := by simp [StatefulList.previous, hs, hl]
          rw [he] at hi
          have hv := Option.some.inj hi
          subst hv
          exact hlast k hl
      | none =>
          have he : l.previous.selected = some 0 := by simp [StatefulList.previous, hs, hl]
          rw [he] at hi
          have hv := Option.some.inj hi
          subst hv
          exact hlen

theorem flip_status_fields (a : App) :
    a.flip_status.items.selected = a.items.selected ∧
    a.flip_status.items.last_selected = a.items.last_selected ∧
    a.flip_status.items.items.length = a.items.items.length := by
  cases hs : a.items.selected with
  | none => simp [App.flip_status, hs]
  | some j => simp [App.flip_status, hs, modifyIdx_length]

theorem handleKey_cursorInv (k : KeyInput) (a : App) (h : cursorInv a) :
    cursorInv (handleKey k a) := by
  obtain ⟨hlen, hsel, hlast⟩ := h
  cases k with
  | left =>
      refine ⟨hlen, ?_, ?_⟩
      · intro i hi
        simp [handleKey, StatefulList.unselect] at hi
      · intro i hi
        have : a.items.selected = some i := hi
        exact hsel i this
  | down => exact ⟨hlen, next_selected_lt a.items hlen hsel hlast, hlast⟩
  | up => exact ⟨hlen, previous_selected_lt a.items hlen hsel hlast, hlast⟩
  | right =>
      obtain ⟨h1, h2, h3⟩ := flip_status_fields a
      refine ⟨?_, ?_, ?_⟩
      · show 0 < a.flip_status.items.items.length
        rw [h3]; exact hlen
      · intro i hi
        have hi2 : a.items.selected = some i := by rw [← h1]; exact hi
        show i < a.flip_status.items.items.length
        rw [h3]; exact hsel i hi2
      · intro i hi
        have hi2 : a.items.last_selected = some i := by rw [← h2]; exact hi
        show i < a.flip_status.items.items.length
        rw [h3]; exact hlast i hi2
  | gTop =>
      refine ⟨hlen, ?_, hlast⟩
      intro i hi
      have hv := Option.some.inj (hi : some 0 = some i)
      subst hv
      exact hlen
  | gBottom =>
      refine ⟨hlen, ?_, hlast⟩
      intro i hi
      have hv := Option.some.inj (hi : some (usizeSub1 a.items.items.length) = some i)
      subst hv
      exact usizeSub1_lt hlen
  | other => exact ⟨hlen, hsel, hlast⟩

theorem pipelineStep_cursorInv (w : ExternalWorld) (a : App) (h : cursorInv a) :
    cursorInv (pipelineStep w a).1 := by
  obtain ⟨hlen, hsel, hlast⟩ := h
  obtain ⟨h1, h2, h3⟩ := pipelineStep_preserves w a
  refine ⟨?_, ?_, ?_⟩
  · rw [h1]; exact hlen
  · intro i hi
    rw [h1]
    exact hsel i (by rw [← h2]; exact hi)
  · intro i hi
    rw [h1]
    exact hlast i (by rw [← h3]; exact hi)

theorem loopStep_cursorInv (w : ExternalWorld) (k : KeyInput) (a : App) (h : cursorInv a) :
    cursorInv (loopStep w k a) :=
  pipelineStep_cursorInv w (handleKey k a) (handleKey_cursorInv k a h)

theorem runSteps_cursorInv (steps : List (KeyInput × ExternalWorld)) (a : App)
    (h : cursorInv a) : cursorInv (runSteps steps a) := by
  induction steps generalizing a with
  | nil => exact h
  | cons s rest ih => exact ih (loopStep s.2 s.1 a) (loopStep_cursorInv s.2 s.1 a h)

theorem appNew_cursorInv (rels : List Release) (h : rels ≠ []) : cursorInv (App.new rels) := by
  refine ⟨?_, ?_, ?_⟩
  · simpa [App.new] using List.length_pos.mpr h
  · intro i hi
    simp [App.new] at hi
  · intro i hi
    simp [App.new] at hi

theorem next_of_selected (l : StatefulList) (i : Nat) (hs : l.selected = some i)
    (hi : i < l.items.length) (hlen : l.items.length < USIZE) :
    l.next = { l with selected := some ((i + 1) % l.items.length) } := by
  have h0 : 0 < l.items.length := Nat.lt_of_le_of_lt (Nat.zero_le i) hi
  have hub : usizeSub1 l.items.length = l.items.length - 1 := usizeSub1_eq h0 hlen
  have hval : (if usizeSub1 l.items.length ≤ i then 0 else i + 1) = (i + 1) % l.items.length := by
    rw [hub]
    split_ifs with hc
    · have h1 : i + 1 = l.items.length := by omega
      rw [h1, Nat.mod_self]
    · rw [Nat.mod_eq_of_lt (by omega)]
  simp [StatefulList.next, hs, hval]

theorem next_iterate_mod (l : StatefulList) (i : Nat) (hs : l.selected = some i)
    (hi : i < l.items.length) (hlen : l.items.length < USIZE) :
    ∀ k, StatefulList.next^[k] l = { l with selected := some ((i + k) % l.items.length) } := by
  intro k
  induction k with
  | zero =>
      rw [Function.iterate_zero_apply, Nat.add_zero, Nat.mod_eq_of_lt hi, ← hs]
  | succ k ih =>
      rw [Function.iterate_succ_apply', ih]
      have h0 : 0 < l.items.length := Nat.lt_of_le_of_lt (Nat.zero_le i) hi
      have hm : (i + k) % l.items.length < l.items.length := Nat.mod_lt _ h0
      have hstep := next_of_selected
        { l with selected := some ((i + k) % l.items.length) }
        ((i + k) % l.items.length) rfl hm hlen
      rw [hstep]
      have hmod : ((i + k) % l.items.length + 1) % l.items.length =
          (i + k + 1) % l.items.length :=
        Nat.ModEq.add_right 1 (Nat.mod_modEq (i + k) l.items.length)
      simp [hmod, Nat.add_assoc]

theorem flip_status_of_selected (a : App) (i : Nat) (hs : a.items.selected = some i) :
    a.flip_status =
      { items :=
          { a.items with
            in_progress := some i
            items := modifyIdx a.items.items i flipItem } } := by
  simp [App.flip_status, hs]

/-- C5: a pipeline run on a pending item whose `asset_id` is the -1
sentinel reports `NoInstallableAsset` (the "No APK asset found" branch),
performs no external call at all, and leaves the state untouched. -/
theorem noAsset_run_no_calls (w : ExternalWorld) (a : App) (i : Nat) (item : ReleaseItem)
    (hp : a.items.in_progress = some i)
    (hi : a.items.items[i]? = some item)
    (hid : item.asset_id = -1) :
    (pipelineStep w a).2.1 = [] ∧
    (pipelineStep w a).2.2 = some RunOutcome.noAsset ∧
    (pipelineStep w a).1 = a := by
  simp [pipelineStep, hp, hi, hid]

/-- Witness for C5 at a concrete no-apk state. -/
theorem noAsset_run_no_calls_witness :
    noAssetApp.items.in_progress = some 0 ∧
    (pipelineStep okWorld noAssetApp).2.1 = [] ∧
    (pipelineStep okWorld noAssetApp).2.2 = some RunOutcome.noAsset ∧
    (pipelineStep okWorld noAssetApp).1 = noAssetApp := by
  have h := noAsset_run_no_calls okWorld noAssetApp 0 (releaseItemFrom zipRelease)
    rfl rfl (by decide)
  exact ⟨rfl, h.1, h.2.1, h.2.2⟩

/-- C6: a pipeline run whose reported outcome is the Download-stage
failure makes no ADB connect, push or install call in that run. -/
theorem download_failure_no_transfer_install (w : ExternalWorld) (a : App)
    (h : (pipelineStep w a).2.2 = some RunOutcome.downloadErr) :
    PipelineEvent.connectCall ∉ (pipelineStep w a).2.1 ∧
    PipelineEvent.pushCall ∉ (pipelineStep w a).2.1 ∧
    PipelineEvent.installCall ∉ (pipelineStep w a).2.1 := by
  cases hp : a.items.in_progress with
  | none => simp [pipelineStep, hp]
  | some i =>
      simp only [pipelineStep, hp] at h ⊢
      split_ifs at h ⊢ <;> simp_all

/-- Witness for C6 at a concrete failing download. -/
theorem download_failure_no_transfer_install_witness :
    (pipelineStep downloadFailWorld apkApp).2.2 = some RunOutcome.downloadErr ∧
    PipelineEvent.connectCall ∉ (pipelineStep downloadFailWorld apkApp).2.1 ∧
    PipelineEvent.pushCall ∉ (pipelineStep downloadFailWorld apkApp).2.1 ∧
    PipelineEvent.installCall ∉ (pipelineStep downloadFailWorld apkApp).2.1 := by
  have h0 : (pipelineStep downloadFailWorld apkApp).2.2 = some RunOutcome.downloadErr := by
    decide
  have h := download_failure_no_transfer_install downloadFailWorld apkApp h0
  exact ⟨h0, h⟩

/-- C8: on a non-empty list with the cursor at a valid index `i`,
applying `next` once per item returns the cursor to `i` (wrap-around
closure of `StatefulList::next`). -/
theorem selectNext_wraparound_closure (l : StatefulList) (i : Nat)
    (hs : l.selected = some i) (hi : i < l.items.length)
    (hlen : l.items.length < USIZE) :
    (StatefulList.next^[l.items.length] l).selected = some i := by
  rw [next_iterate_mod l i hs hi hlen l.items.length]
  simp [Nat.add_mod_right, Nat.mod_eq_of_lt hi]

/-- Witness for C8 on a concrete three-item list. -/
theorem selectNext_wraparound_closure_witness :
    cycleList.selected = some 1 ∧ 1 < cycleList.items.length ∧
    cycleList.items.length < USIZE ∧
    (StatefulList.next^[cycleList.items.length] cycleList).selected = some 1 :=
  ⟨rfl, by decide, by decide,
   selectNext_wraparound_closure cycleList 1 rfl (by decide) (by decide)⟩

/-- C9: `unselect` saves the cursor into `last_selected`, and `next`
with no cursor resumes there, so deselect-then-next restores the cursor;
with no cursor and no previous selection, `next` selects index 0. -/
theorem deselect_then_next_resumes (l : StatefulList) :
    (∀ i, l.selected = some i → l.unselect.next.selected = some i) ∧
    (l.selected = none → l.last_selected = none → l.next.selected = some 0) := by
  constructor
  · intro i hs
    simp [StatefulList.unselect, StatefulList.next, hs]
  · intro hs hl
    simp [StatefulList.next, hs, hl]

/-- Witness for C9 on a concrete three-item list with cursor 2. -/
theorem deselect_then_next_resumes_witness :
    resumeList.selected = some 2 ∧ resumeList.unselect.next.selected = some 2 :=
  ⟨rfl, (deselect_then_next_resumes resumeList).1 2 rfl⟩

/-- C10: with the cursor on a valid index `i`, `flip_status` twice
restores every item (the status toggle is an involution) while leaving
`in_progress = some i` after each call; with no cursor, `flip_status`
is the identity. -/
theorem flip_status_involution (a : App) :
    (∀ i, a.items.selected = some i → i < a.items.items.length →
        a.flip_status.flip_status.items.items = a.items.items ∧
        a.flip_status.items.in_progress = some i ∧
        a.flip_status.flip_status.items.in_progress = some i) ∧
    (a.items.selected = none → a.flip_status = a) := by
  constructor
  · intro i hs hi
    have hs2 : a.flip_status.items.selected = some i := by
      rw [(flip_status_fields a).1]
      exact hs
    rw [flip_status_of_selected a.flip_status i hs2, flip_status_of_selected a i hs]
    simp [modifyIdx_flipItem_invol]
  · intro hs
    simp [App.flip_status, hs]

/-- Witness for C10 on a concrete one-item state. -/
theorem flip_status_involution_witness :
    flipApp.items.selected = some 0 ∧ 0 < flipApp.items.items.length ∧
    flipApp.flip_status.flip_status.items.items = flipApp.items.items ∧
    flipApp.flip_status.items.in_progress = some 0 :=
  ⟨rfl, by decide, ((flip_status_involution flipApp).1 0 rfl (by decide)).1,
   ((flip_status_involution flipApp).1 0 rfl (by decide)).2.1⟩

/-- C1 counterexample: after a pipeline run that succeeds through all
four stages, the triggering item's status is `Installed`, not the
initial `Open` (the spec's `Idle`); and after a run that fails at the
Download stage, `in_progress` is still set. -/
theorem pipeline_completion_counterexample :
    (runOkState.items.items.getD 0 default).status = Status.Installed ∧
    runOkState.items.in_progress = none ∧
    runDlFailState.items.in_progress = some 0 := by decide

/-- C1 (amended): a pipeline run never modifies any item's status, and
it clears `in_progress` exactly when it reaches the Install stage
(success or install failure); on a Resolve, Download or Transfer
failure the whole state, `in_progress` included, is unchanged. -/
theorem pipeline_completion_state (w : ExternalWorld) (a : App) :
    (pipelineStep w a).1.items.items = a.items.items ∧
    (((pipelineStep w a).2.2 = some RunOutcome.success ∨
      (pipelineStep w a).2.2 = some RunOutcome.installErr) →
        (pipelineStep w a).1.items.in_progress = none) ∧
    (((pipelineStep w a).2.2 = some RunOutcome.noAsset ∨
      (pipelineStep w a).2.2 = some RunOutcome.downloadErr ∨
      (pipelineStep w a).2.2 = some RunOutcome.sendErr) →
        (pipelineStep w a).1 = a) :=
  ⟨(pipelineStep_preserves w a).1, pipelineStep_install_clears w a,
   pipelineStep_fail_keeps w a⟩

/-- Witness for C1 (amended) at a concrete successful run. -/
theorem pipeline_completion_state_witness :
    (pipelineStep okWorld apkApp).2.2 = some RunOutcome.success ∧
    (pipelineStep okWorld apkApp).1.items.in_progress = none :=
  ⟨by decide, (pipeline_completion_state okWorld apkApp).2.1 (Or.inl (by decide))⟩

/-- C2 counterexample: in the reachable state `twoPendingState` the
pending slot holds item 0 while the cursor is on item 1, yet activating
item 1 is not rejected: it toggles item 1's status and repoints the
pending slot, leaving two items in the activated (`Installed`) status
at once. -/
theorem activation_not_rejected_counterexample :
    twoPendingState.items.in_progress = some 0 ∧
    twoPendingState.items.selected = some 1 ∧
    twoPendingState.flip_status.items.in_progress = some 1 ∧
    (twoPendingState.items.items.getD 1 default).status = Status.Open ∧
    (twoPendingState.flip_status.items.items.getD 1 default).status = Status.Installed ∧
    (twoPendingState.flip_status.items.items.getD 0 default).status = Status.Installed := by
  decide

/-- C2 (amended): `flip_status` with the cursor on item `i`
unconditionally sets the pending slot to `some i` and toggles item
`i`'s status, even while another item's run is pending; no activation
is ever rejected, so several items can be `Installed` at once. -/
theorem flip_status_never_rejected (a : App) (i : Nat)
    (hs : a.items.selected = some i) :
    a.flip_status.items.in_progress = some i ∧
    a.flip_status.items.items = modifyIdx a.items.items i flipItem := by
  rw [flip_status_of_selected a i hs]
  exact ⟨rfl, rfl⟩

/-- Witness for C2 (amended): activation while item 0 is pending. -/
theorem flip_status_never_rejected_witness :
    pendingOtherApp.items.in_progress = some 0 ∧
    pendingOtherApp.items.selected = some 1 ∧
    pendingOtherApp.flip_status.items.in_progress = some 1 ∧
    pendingOtherApp.flip_status.items.items = modifyIdx pendingOtherApp.items.items 1 flipItem :=
  ⟨rfl, rfl, (flip_status_never_rejected pendingOtherApp 1 rfl).1,
   (flip_status_never_rejected pendingOtherApp 1 rfl).2⟩

/-- C3 counterexample: after the reachable state `runDlFailState`,
whose run failed at the Download stage, a loop iteration driven by a
pure navigation key (`up`) performs a fresh download attempt with no
new activate action. -/
theorem automatic_retry_counterexample :
    runDlFailState.items.in_progress = some 0 ∧
    (pipelineStep downloadFailWorld (handleKey KeyInput.up runDlFailState)).2.1 =
      [PipelineEvent.downloadCall 5] ∧
    (pipelineStep downloadFailWorld (handleKey KeyInput.up runDlFailState)).2.2 =
      some RunOutcome.downloadErr := by decide

/-- C3 (amended): only a run that reaches the Install stage (success or
install failure) stops further attempts: it clears the pending slot, so
the next pipeline pass makes no call and reports nothing; navigation
keys never change the pending slot, so after a Resolve, Download or
Transfer failure the still-set slot lets the next iteration re-attempt
automatically. -/
theorem no_automatic_retry_only_after_install (w w2 : ExternalWorld) (a : App) (k : KeyInput) :
    (((pipelineStep w a).2.2 = some RunOutcome.success ∨
      (pipelineStep w a).2.2 = some RunOutcome.installErr) →
        pipelineStep w2 (pipelineStep w a).1 = ((pipelineStep w a).1, [], none)) ∧
    (k ≠ KeyInput.right → (handleKey k a).items.in_progress = a.items.in_progress) := by
  constructor
  · intro h
    exact pipelineStep_of_none w2 _ (pipelineStep_install_clears w a h)
  · exact handleKey_in_progress k a

/-- Witness for C3 (amended) at a concrete successful run. -/
theorem no_automatic_retry_only_after_install_witness :
    (pipelineStep okWorld apkApp).2.2 = some RunOutcome.success ∧
    pipelineStep downloadFailWorld (pipelineStep okWorld apkApp).1 =
      ((pipelineStep okWorld apkApp).1, [], none) :=
  ⟨by decide,
   (no_automatic_retry_only_after_install okWorld downloadFailWorld apkApp KeyInput.up).1
     (Or.inl (by decide))⟩

/-- C4 counterexample: on the empty catalog, the jump-to-first key in a
reachable control-loop state sets the cursor to index 0, which is not a
valid index into the zero-length item list. -/
theorem cursor_validity_counterexample :
    (runSteps [(KeyInput.gTop, okWorld)] (App.new [])).items.selected = some 0 ∧
    (runSteps [(KeyInput.gTop, okWorld)] (App.new [])).items.items.length = 0 := by decide

/-- C4 (amended): over a non-empty catalog, in every reachable state of
the control loop the cursor, when set, is a valid index into the item
list. -/
theorem cursor_always_valid (rels : List Release) (steps : List (KeyInput × ExternalWorld))
    (h : rels ≠ []) :
    ∀ i, (runSteps steps (App.new rels)).items.selected = some i →
      i < (runSteps steps (App.new rels)).items.items.length :=
  (runSteps_cursorInv steps (App.new rels) (appNew_cursorInv rels h)).2.1

/-- Witness for C4 (amended) on a one-release catalog after a
jump-to-last key. -/
theorem cursor_always_valid_witness :
    (runSteps [(KeyInput.gBottom, okWorld)] (App.new [apkRelease])).items.selected = some 0 ∧
    0 < (runSteps [(KeyInput.gBottom, okWorld)] (App.new [apkRelease])).items.items.length :=
  ⟨by decide,
   cursor_always_valid [apkRelease] [(KeyInput.gBottom, okWorld)] (by decide) 0 (by decide)⟩

/-- C7 (code bug): evaluating the code at the failing input.  On the
empty catalog the jump-to-last key (`G`, `App::go_bottom`) computes
`0 - 1` on `usize`: under release-build wrapping it sets the cursor to
`2 ^ 64 - 1` (a debug build panics), and the jump-to-first key (`g`)
sets the cursor to 0 — neither is the safe no-op the spec requires on
an empty list. -/
theorem select_last_empty_underflow :
    (runSteps [(KeyInput.gBottom, okWorld)] (App.new [])).items.selected =
      some (USIZE - 1) ∧
    (runSteps [(KeyInput.gTop, okWorld)] (App.new [])).items.selected = some 0 ∧
    (App.new []).items.items.length = 0 ∧
    USIZE - 1 = 18446744073709551615 := by decide
